import Mathlib

/-!
Verification development for the ckb-standalone-debugger repository
(crates `ckb-debugger` and `ckb-debugger-api`).

The development shallowly embeds the debug orchestrator of
`ckb-debugger/src/main.rs` — most importantly the resumable-session
manager `machine_sget` (lines 665-716), the trace normalizer
`TracedInstruction::new` (lines 750-813), the full/fast mode exit-code
handling (lines 405-423 and 449-453), and the trace_dump decoder choice
(lines 548-552) — together with the `run_json` pipeline of
`ckb-debugger-api/src/lib.rs`.

Machine words are modelled as `Nat`; the subtractions performed by
`machine_sget` are exercised by the theorems only in the region where
no `u64` underflow occurs, so truncated `Nat` subtraction agrees with
the source there (the relevant theorems carry the corresponding
hypotheses).

The CPU core (decode/execute of individual RISC-V instructions) is an
external collaborator of the orchestrator.  A machine is therefore
modelled by the stream of instruction events the orchestrator observes
from it: ordinary instructions, the two recognized boundary ecalls
(`A7 = 2043` cache reset, `A7 = 2101` spawn handoff), each with the
cycle cost charged by the configured instruction-cost model.  When the
stream is exhausted the machine stops running, holding its exit value.
-/

/-- One instruction event as observed by the session manager's loop:
the decoded opcode class of the next instruction together with the
cycle cost the instruction-cost model charges for it. -/
inductive Event where
  /-- The instruction `OP_ECALL` with register `A7 = 2043`: the cache-reset boundary. -/
  | ecall2043 (cost : Nat)
  /-- The instruction `OP_ECALL` with register `A7 = 2101`: the spawn/exec handoff boundary. -/
  | ecall2101 (cost : Nat)
  /-- Any other instruction. -/
  | other (cost : Nat)
deriving DecidableEq, Repr

/-- Cycle cost of an event (the configured instruction-cost model). -/
def Event.cost : Event → Nat
  | .ecall2043 c => c
  | .ecall2101 c => c
  | .other c => c

/-- A machine as seen by the session manager: the remaining stream of
instruction events, the exit value the program will stop with, the
cycle counter, the max-cycle budget, and the return-value register
`a0` (the register `update_caller_machine` writes back into). -/
structure Machine where
  events : List Event
  exitVal : Int
  cycles : Nat
  maxCycles : Nat
  a0 : Int
deriving DecidableEq, Repr

/-- Running state, `machine.running()`: the machine stops exactly when its
instruction stream is exhausted. -/
def Machine.running (m : Machine) : Bool :=
  !m.events.isEmpty

/-- Cycle-counter write, `machine.set_cycles(c)`. -/
def Machine.setCycles (m : Machine) (c : Nat) : Machine :=
  { m with cycles := c }

/-- Budget write, `machine.set_max_cycles(c)` (applied to the popped child at the
spawn handoff, main.rs line 700). -/
def Machine.setMaxCycles (m : Machine) (c : Nat) : Machine :=
  { m with maxCycles := c }

/-- Errors a `machine_sget` session can end with.  The `Result`
returned by the Rust function propagates VM errors with `?`; the three
`unwrap`/`panic` sites are modelled as dedicated fatal error values. -/
inductive SgetError where
  /-- A VM error propagated by `?` (cycle exhaustion while stepping). -/
  | vmError
  /-- Unwrapping `context.suspended_machines.pop()` on an empty stack
  (main.rs line 698): the handoff stack underflow, the spec's
  `StackInvariantViolation`. -/
  | stackUnderflow
  /-- Unwrapping `machine_vec.pop()` on an empty stack (main.rs line 711). -/
  | machineVecUnderflow
  /-- Unwrapping `spawn_data.clone()` on `None` (main.rs line 712). -/
  | spawnDataMissing
deriving DecidableEq, Repr

/-- Caller register snapshot captured at handoff time (the
`SpawnData` carried by `ResumableMachine::Spawn`; its contents are
opaque to the session manager). -/
structure SpawnData where
  id : Nat
deriving DecidableEq, Repr

/-- An entry of `context.suspended_machines`
(`ckb_script::ResumableMachine`). -/
inductive ResumableMachine where
  | initial (m : Machine)
  | spawn (m : Machine) (sd : SpawnData)
deriving DecidableEq, Repr

/-- Single step, `machine.step(&mut decoder)`: execute the next instruction.
`add_cycles` runs before the instruction commits and fails (leaving
the machine unchanged) when the new total would exceed the max-cycle
budget; otherwise the instruction retires and the event is consumed. -/
def Machine.step (m : Machine) : Except SgetError Machine :=
  match m.events with
  | [] => .ok m
  | e :: rest =>
      if m.cycles + e.cost > m.maxCycles then
        .error .vmError
      else
        .ok { m with events := rest, cycles := m.cycles + e.cost }

/-- Discarded step, `let _ = machine.step(&mut decoder)` (main.rs line 695): the step
whose error is discarded.  On failure the cycle charge did not commit
and the instruction did not retire, so the machine is unchanged. -/
def Machine.stepDiscard (m : Machine) : Machine :=
  match m.step with
  | .ok m' => m'
  | .error _ => m

/-- Modelled from the spec: `ckb_script::update_caller_machine`
(external to this repository) performs the "update caller" write —
"write the child's return value and cycles-consumed into the parent's
registers and ledger": it stores the given return value in the
caller's return-value register and adds the given consumed cycles to
the caller's cycle ledger. -/
def update_caller_machine (caller : Machine) (ret : Int) (cycles : Nat)
    (_sd : SpawnData) : Machine :=
  { caller with a0 := ret, cycles := caller.cycles + cycles }

/-- The mutable state threaded through `machine_sget`: the active
machine, the shared `context.suspended_machines` stack (top at the
head), the internal `machine_vec` stack of paused parents (top at the
head), the single `spawn_data` slot, and an instrumentation counter of
pops performed on the suspended-machine stack. -/
structure SState where
  machine : Machine
  ctx : List ResumableMachine
  vec : List Machine
  sd : Option SpawnData
  pops : Nat
deriving DecidableEq, Repr

/-- The spawn/exec handoff branch of `machine_sget` (main.rs lines
691-707): capture the current cycle count, park the counter at
`max_cycles - 500`, record the cycle-budget delta, execute the
boundary ecall with its error discarded, restore the counter to
`original + 500`, pop the prepared child off the suspended-machine
stack (a fatal underflow if it is empty), and — when the entry is a
`Spawn` — give the child the recorded budget delta, push the paused
parent, and make the child active. -/
def handleSpawnBoundary (m : Machine) (ctx : List ResumableMachine)
    (vec : List Machine) (sd : Option SpawnData) (pops : Nat) :
    Except SgetError (Machine × List ResumableMachine × List Machine × Option SpawnData × Nat) :=
  let cyclesCurrent := m.cycles
  let m1 := m.setCycles (m.maxCycles - 500)
  let cyclesDiff := m1.cycles - cyclesCurrent
  let m2 := m1.stepDiscard
  let m3 := m2.setCycles (cyclesCurrent + 500)
  match ctx with
  | [] => .error .stackUnderflow
  | entry :: ctxRest =>
      match entry with
      | .spawn child sdChild =>
          .ok (child.setMaxCycles cyclesDiff, ctxRest, m3 :: vec, some sdChild, pops + 1)
      | .initial _ =>
          .ok (m3, ctxRest, vec, sd, pops + 1)

/-- How one pass of the inner `while machine.running()` loop of
`machine_sget` (main.rs lines 677-709) can end, from the point of view
of the active machine alone: the loop body mutates only the machine
until it breaks at a boundary ecall or the machine stops running. -/
inductive RunOut where
  /-- The machine stopped running (loop condition became false). -/
  | stopped (m : Machine)
  /-- The loop stepped over an `A7 = 2043` boundary ecall and broke. -/
  | hit2043 (m : Machine)
  /-- The loop reached an `A7 = 2101` boundary ecall (not yet
  executed: the spawn-handoff branch performs its own step). -/
  | hit2101 (m : Machine)
  /-- A step error was propagated out of `machine_sget` by `?`. -/
  | failed
deriving DecidableEq, Repr

/-- The inner loop of `machine_sget` over the active machine's event
stream (the machine's `exitVal`, `a0` and `maxCycles` are untouched by
the loop, so they are threaded as constants): decode the next
instruction; on the cache-reset boundary step over it (propagating
step errors) and break; on the spawn-handoff boundary break with the
machine untouched (the spawn-handoff branch performs its own step);
otherwise step (propagating cycle exhaustion) and continue.  The steps
are `Machine.step` inlined so the recursion is structural on the event
stream. -/
def runEvents (exitV a : Int) (max : Nat) : List Event → Nat → RunOut
  | [], cyc => .stopped ⟨[], exitV, cyc, max, a⟩
  | .ecall2043 c :: rest, cyc =>
      if cyc + c > max then .failed
      else .hit2043 ⟨rest, exitV, cyc + c, max, a⟩
  | .ecall2101 c :: rest, cyc => .hit2101 ⟨.ecall2101 c :: rest, exitV, cyc, max, a⟩
  | .other c :: rest, cyc =>
      if cyc + c > max then .failed
      else runEvents exitV a max rest (cyc + c)

/-- The inner `while machine.running()` loop of `machine_sget`
(main.rs lines 677-709) on the active machine. -/
def runUntilBoundary (m : Machine) : RunOut :=
  runEvents m.exitVal m.a0 m.maxCycles m.events m.cycles

/-- Outcome of running the session forward to the next boundary break
(splicing parents back in whenever the active machine stops). -/
inductive BOut where
  | b2043 (m : Machine)
  | b2101 (m : Machine)
deriving DecidableEq, Repr

/-- Run the active machine to the next boundary break, performing the
stop handling of main.rs lines 710-713 each time the active machine
stops: pop the paused parent off `machine_vec` (a fatal underflow if
it is empty), apply the update-caller write with return value `0` and
consumed cycles `0`, and resume with the parent active.  In the source
this cascade is the outer loop re-entering its inner loop without
touching `specify`; here it is the structural recursion on
`machine_vec`. -/
def runToBoundary : List Machine → Machine → Option SpawnData →
    Except SgetError (BOut × List Machine)
  | [], m, _sd =>
      match runUntilBoundary m with
      | .failed => .error .vmError
      | .hit2043 m2 => .ok (.b2043 m2, [])
      | .hit2101 m2 => .ok (.b2101 m2, [])
      | .stopped _ => .error .machineVecUnderflow
  | parent :: vecRest, m, sd =>
      match runUntilBoundary m with
      | .failed => .error .vmError
      | .hit2043 m2 => .ok (.b2043 m2, parent :: vecRest)
      | .hit2101 m2 => .ok (.b2101 m2, parent :: vecRest)
      | .stopped _ =>
          match sd with
          | none => .error .spawnDataMissing
          | some s => runToBoundary vecRest (update_caller_machine parent 0 0 s) sd

/-- A single application of the stop handling of main.rs lines
710-713, used for the stop check that follows a boundary break. -/
def handleStop (st : SState) : Except SgetError SState :=
  match st.vec with
  | [] => .error .machineVecUnderflow
  | parent :: vecRest =>
      match st.sd with
      | none => .error .spawnDataMissing
      | some sd =>
          .ok { st with machine := update_caller_machine parent 0 0 sd, vec := vecRest }

/-- The outer `while specify != 0` loop of `machine_sget` (main.rs
lines 675-714): run the session to the next boundary break (splicing
stopped machines' parents along the way, which leaves `specify`
untouched), apply the boundary's handling, decrement the depth budget,
and — since the source checks `!machine.running()` once more before
re-testing `specify` — apply one stop handling if the post-boundary
active machine is already stopped. -/
def sgetAux : Nat → SState → Except SgetError SState
  | 0, st => .ok st
  | s + 1, st =>
      match runToBoundary st.vec st.machine st.sd with
      | .error e => .error e
      | .ok (.b2043 m', vec1) =>
          let st1 : SState := { st with machine := m', vec := vec1 }
          if st1.machine.running then
            sgetAux s st1
          else
            match handleStop st1 with
            | .error e => .error e
            | .ok st2 => sgetAux s st2
      | .ok (.b2101 m', vec1) =>
          match handleSpawnBoundary m' st.ctx vec1 st.sd st.pops with
          | .error e => .error e
          | .ok (mA, ctx', vec', sd', pops') =>
              let st1 : SState := ⟨mA, ctx', vec', sd', pops'⟩
              if st1.machine.running then
                sgetAux s st1
              else
                match handleStop st1 with
                | .error e => .error e
                | .ok st2 => sgetAux s st2

/-- The session manager `machine_sget` (main.rs lines 665-716), with the full final state
exposed: start from the given active machine, the resolver-prepared
suspended-machine stack and the depth budget `specify`; the internal
parent stack starts empty and no spawn data has been captured. -/
def machine_sgetFull (machine : Machine) (ctx : List ResumableMachine)
    (specify : Nat) : Except SgetError SState :=
  sgetAux specify ⟨machine, ctx, [], none, 0⟩

/-- The session manager `machine_sget` as the source returns it: just the final active
machine. -/
def machine_sget (machine : Machine) (ctx : List ResumableMachine)
    (specify : Nat) : Except SgetError Machine :=
  (machine_sgetFull machine ctx specify).map SState.machine

/-! ## Trace recorder (main.rs lines 718-813) -/

/-- A decoded instruction tagged with its format
(`ckb_vm::instructions::tagged::TaggedInstruction`).  The fields carry
the values the accessors used by `TracedInstruction::new` return —
register indices `rd`/`rs1`/`rs2` and the unsigned immediate
`immediate_u`, already cast to `u32` by the source. -/
inductive TaggedInstruction where
  | itype (rd rs1 immediate_u : Nat)
  | rtype (rd rs1 rs2 : Nat)
  | stype (rs2 rs1 immediate_u : Nat)
  | utype (rd immediate_u : Nat)
  | r4type (rd rs1 rs2 rs3 : Nat)
  | r5type (rd rs1 rs2 rs3 rs4 : Nat)
deriving DecidableEq, Repr

/-- Suffix stripping applied to the opcode mnemonic by
`TracedInstruction::new` (main.rs lines 752-757): keep what precedes
the first underscore (the source is
`instruction_opcode_name(..).split("_").next().unwrap()`, annotated
"remove _VERSION0 or _VERSION1").  The split of a Rust string always
yields a first piece, so the default branch of `headD` is never
taken. -/
def stripOpcodeName (s : String) : String :=
  (s.splitOn "_").headD s

/-- The canonical trace record (struct `TracedInstruction`, main.rs
lines 718-729). -/
structure TracedInstruction where
  opcode : String
  instruction : Nat
  length : Nat
  mnemonics : String
  op_a : Nat
  op_b : Nat
  op_c : Nat
  imm_b : Bool
  imm_c : Bool
deriving DecidableEq, Repr

/-- The normalizer `TracedInstruction::new` (main.rs lines 750-813).
The values the source obtains from the external ckb-vm crate before
the format dispatch — the opcode mnemonic
(`instruction_opcode_name(extract_opcode(inst))`), the mnemonics
rendering (`format!("{}", inst)`), the raw instruction word and the
instruction length — enter as parameters.  The `panic` on the
four/five-operand fused formats is modelled as an error value. -/
def TracedInstruction.new (opcodeName mnemonics : String)
    (instruction len : Nat) :
    TaggedInstruction → Except String TracedInstruction
  | .itype rd rs1 imm =>
      .ok ⟨stripOpcodeName opcodeName, instruction, len, mnemonics,
           rd, rs1, imm, false, true⟩
  | .rtype rd rs1 rs2 =>
      .ok ⟨stripOpcodeName opcodeName, instruction, len, mnemonics,
           rd, rs1, rs2, false, false⟩
  | .stype rs2 rs1 imm =>
      .ok ⟨stripOpcodeName opcodeName, instruction, len, mnemonics,
           rs2, rs1, imm, false, false⟩
  | .utype rd imm =>
      .ok ⟨stripOpcodeName opcodeName, instruction, len, mnemonics,
           rd, imm, 0, true, false⟩
  | .r4type _ _ _ _ =>
      .error "Shouldn't have r4 type in trace dumping"
  | .r5type _ _ _ _ _ =>
      .error "Shouldn't have r5 type in trace dumping"

/-! ## Full / fast mode exit handling (main.rs lines 391-455) -/

/-- Terminal faults a run can end with instead of an exit code; their
identity is irrelevant to the exit-code contract. -/
inductive RunFault where
  | decodeError
  | executionFault
  | cycleExhaustion
deriving DecidableEq, Repr

/-- Process-boundary outcome of the debugger: either `main` falls
through to `return Ok(())` (process exit status 0) or it calls
`std::process::exit` with the given status. -/
inductive ProcessExit where
  | success
  | exitWith (status : Nat)
deriving DecidableEq, Repr

/-- Full-mode handling of the run result (main.rs lines 405-434): on
`Ok(data)` the exit code is printed verbatim ("Run result") and a
non-zero value maps to `std::process::exit(254)`, a zero value to
`return Ok(())`; on an error no exit code is reported and `main`
returns `Ok(())`. -/
def full_mode_outcome : Except RunFault Int → Option Int × ProcessExit
  | .ok data => (some data, if data ≠ 0 then .exitWith 254 else .success)
  | .error _ => (none, .success)

/-- Fast-mode handling of the run result (main.rs lines 441-454): the
result is printed verbatim and `std::process::exit(254)` fires exactly
when the result is `Ok(data)` with non-zero `data`. -/
def fast_mode_outcome : Except RunFault Int → Option Int × ProcessExit
  | .ok data => (some data, if data ≠ 0 then .exitWith 254 else .success)
  | .error _ => (none, .success)

/-! ## Script versions and the trace_dump decoder (main.rs lines 287-292, 524-590) -/

/-- The script versions selectable with `--script-version`
(main.rs lines 287-292). -/
inductive ScriptVersion where
  | v0
  | v1
  | v2
deriving DecidableEq, Repr

/-- The script version whose `vm_isa()`/`vm_version()` trace_dump
hands to `build_decoder` (main.rs lines 548-552): the CLI-selected
version is shadowed by a hardcoded `ScriptVersion::V0` just before the
decoder is built. -/
def trace_dump_decoder_version (_cliVersion : ScriptVersion) : ScriptVersion :=
  ScriptVersion.v0

/-- The script version the machine itself is built with
(`machine_init`, main.rs lines 324-329, capturing the CLI-selected
`verifier_script_version` before any shadowing). -/
def machine_script_version (cliVersion : ScriptVersion) : ScriptVersion :=
  cliVersion

/-- Rank of a script version; each version's instruction set extends
the previous one's. -/
def ScriptVersion.rank : ScriptVersion → Nat
  | .v0 => 0
  | .v1 => 1
  | .v2 => 2

/-- Modelled from the spec: the decoder the external
`ckb_vm::decoder::build_decoder` builds for a script version decodes
exactly that version's instruction set ("ISA:
instruction-set-architecture version selecting opcodes and cost
model"), so an instruction introduced only in a later ISA version
fails to decode. -/
def decode_ok (decoderVersion introducedIn : ScriptVersion) : Bool :=
  introducedIn.rank ≤ decoderVersion.rank

/-- Whether an instruction introduced in ISA version `introducedIn`
decodes in trace_dump mode when the CLI selected `cliVersion`
(main.rs lines 548-559). -/
def trace_dump_decode_ok (cliVersion introducedIn : ScriptVersion) : Bool :=
  decode_ok (trace_dump_decoder_version cliVersion) introducedIn

/-! ## The ckb-debugger-api pipeline (lib.rs) -/

/-- Opaque stand-in for `ckb_mock_tx_types::MockTransaction`. -/
structure MockTransaction where
  id : Nat
deriving DecidableEq, Repr

/-- Stand-in for `ckb_script::ScriptGroupType` (lock or type). -/
inductive ScriptGroupType where
  | lock
  | ty
deriving DecidableEq, Repr

/-- Stand-in for `ckb_types::packed::Byte32`: the 32-byte script hash,
carried as the raw input it was decoded from. -/
structure Byte32 where
  raw : String
deriving DecidableEq, Repr

/-- Stand-in for `faster_hex::hex_decode_fallback` into a fresh 32-byte
buffer (lib.rs lines 87-89): an infallible decode of the hex digits
after the `0x` prefix. -/
def hex_decode_fallback (hexScriptHash : String) : Byte32 :=
  ⟨hexScriptHash.drop 2⟩

/-- Opaque stand-in for `ckb_mock_tx_types::Resource`. -/
structure Resource where
  id : Nat
deriving DecidableEq, Repr

/-- Opaque stand-in for a resolved transaction. -/
structure ResolvedTransaction where
  id : Nat
deriving DecidableEq, Repr

/-- The function `run` of lib.rs (lines 30-51), with its external
collaborators as parameters: `Resource::from_both`,
`resolve_transaction` (whose error is wrapped as "Resolve transaction
error: ..") and `verifier.verify_single` (whose error is wrapped as
"Verify script error: ..").  The optional debug printer plays no role
in the returned value. -/
def api_run
    (resourceFromBoth : MockTransaction → Except String Resource)
    (resolveTransaction : MockTransaction → Resource → Except String ResolvedTransaction)
    (verifySingle : ResolvedTransaction → Resource → ScriptGroupType → Byte32 → Nat →
      Except String Nat)
    (mockTx : MockTransaction) (sgt : ScriptGroupType) (scriptHash : Byte32)
    (maxCycle : Nat) : Except String Nat :=
  match resourceFromBoth mockTx with
  | .error e => .error e
  | .ok resource =>
      match resolveTransaction mockTx resource with
      | .error e => .error ("Resolve transaction error: " ++ e)
      | .ok rtx =>
          match verifySingle rtx resource sgt scriptHash maxCycle with
          | .error e => .error ("Verify script error: " ++ e)
          | .ok cycle => .ok cycle

/-- The JSON result shape (lib.rs lines 53-57): a consumed-cycle count
on success or an error string on failure. -/
structure JsonResult where
  cycle : Option Nat
  error : Option String
deriving DecidableEq, Repr

/-- Conversion of a run result into the JSON shape (lib.rs lines
59-72). -/
def JsonResult.fromResult : Except String Nat → JsonResult
  | .ok cycle => ⟨some cycle, none⟩
  | .error e => ⟨none, some e⟩

/-- Prefix test used by the script-hash validation,
`hex_script_hash.starts_with("0x")` (lib.rs line 84): the first two
characters are "0x".  Stated over the character list so that it
evaluates on concrete inputs; on the ASCII prefix "0x" this agrees
with the byte-level test of the source. -/
def startsWith0x (s : String) : Bool :=
  s.data.take 2 = ['0', 'x']

/-- The function `internal_run_json` (lib.rs lines 74-92) with the
external parsers as parameters: parse the mock transaction JSON, parse
the script group type, validate the script hash shape (66 characters
beginning with "0x"), decode it, parse the max cycle, and run the
verifier. -/
def internal_run_json
    (parseTx : String → Except String MockTransaction)
    (parseGroupType : String → Except String ScriptGroupType)
    (parseCycle : String → Option Nat)
    (resourceFromBoth : MockTransaction → Except String Resource)
    (resolveTransaction : MockTransaction → Resource → Except String ResolvedTransaction)
    (verifySingle : ResolvedTransaction → Resource → ScriptGroupType → Byte32 → Nat →
      Except String Nat)
    (mock_tx script_group_type hex_script_hash max_cycle : String) :
    Except String Nat :=
  match parseTx mock_tx with
  | .error e => .error e
  | .ok tx =>
      match parseGroupType script_group_type with
      | .error e => .error e
      | .ok sgt =>
          if hex_script_hash.length ≠ 66 ∨ ¬ startsWith0x hex_script_hash then
            .error "Invalid script hash format!"
          else
            let scriptHash := hex_decode_fallback hex_script_hash
            match parseCycle max_cycle with
            | none => .error "Invalid max cycle!"
            | some maxCycle =>
                api_run resourceFromBoth resolveTransaction verifySingle
                  tx sgt scriptHash maxCycle

/-- The exported `run_json` (lib.rs lines 94-99): the result of
`internal_run_json`, converted to the JSON shape. -/
def run_json
    (parseTx : String → Except String MockTransaction)
    (parseGroupType : String → Except String ScriptGroupType)
    (parseCycle : String → Option Nat)
    (resourceFromBoth : MockTransaction → Except String Resource)
    (resolveTransaction : MockTransaction → Resource → Except String ResolvedTransaction)
    (verifySingle : ResolvedTransaction → Resource → ScriptGroupType → Byte32 → Nat →
      Except String Nat)
    (mock_tx script_group_type hex_script_hash max_cycle : String) : JsonResult :=
  JsonResult.fromResult
    (internal_run_json parseTx parseGroupType parseCycle
      resourceFromBoth resolveTransaction verifySingle
      mock_tx script_group_type hex_script_hash max_cycle)

/-! ## Concrete session scenarios -/

/-- A parent machine that issues the spawn handoff, then a cache
reset, and then still has one instruction to run (exit value 3,
initial `a0` equal to 9 so overwrites are visible). -/
def parentMachine : Machine :=
  ⟨[.ecall2101 0, .ecall2043 0, .other 1], 3, 0, 2000, 9⟩

/-- A child machine that executes one ordinary instruction costing 42
cycles and then stops with the given exit value. -/
def childMachine (v : Int) : Machine :=
  ⟨[.other 42], v, 0, 0, 0⟩

/-- Spawn data attached to the prepared child. -/
def childSpawnData : SpawnData :=
  ⟨5⟩

/-- A machine at call depth `i` that immediately issues the spawn
handoff ecall; its exit value tags its depth. -/
def immediateSpawner (i : Nat) : Machine :=
  ⟨[.ecall2101 0], (i : Int), 0, 0, 0⟩

/-- A resolver-prepared suspended-machine stack of the given depth:
the entry at stack position `k` (from the top) carries the machine for
call depth `start + k`, and every prepared machine immediately issues
the next spawn handoff. -/
def spawnStack : Nat → Nat → List ResumableMachine
  | _, 0 => []
  | start, d + 1 => .spawn (immediateSpawner start) ⟨start⟩ :: spawnStack (start + 1) d

/-- A root machine that issues the cache-reset boundary ecall (cost 3)
and then still has one instruction to run. -/
def cacheResetRoot : Machine :=
  ⟨[.ecall2043 3, .other 1], 0, 0, 2000, 0⟩

/-- A root machine (call depth 0) that immediately issues the spawn
handoff, with a comfortable cycle budget. -/
def spawnRoot : Machine :=
  ⟨[.ecall2101 0], 0, 0, 2000, 0⟩

/-! ## Concrete external collaborators for the api pipeline -/

/-- A concrete transaction parser: accepts exactly "tx-ok". -/
def wParseTx : String → Except String MockTransaction :=
  fun s => if s = "tx-ok" then .ok ⟨1⟩ else .error "bad tx"

/-- A concrete script-group-type parser: accepts exactly "lock". -/
def wParseGroupType : String → Except String ScriptGroupType :=
  fun s => if s = "lock" then .ok .lock else .error "bad group type"

/-- A concrete max-cycle parser: accepts exactly "100". -/
def wParseCycle : String → Option Nat :=
  fun s => if s = "100" then some 100 else none

/-- A concrete resource loader that always succeeds. -/
def wResourceFromBoth : MockTransaction → Except String Resource :=
  fun _ => .ok ⟨0⟩

/-- A concrete transaction resolver that always succeeds. -/
def wResolveTransaction : MockTransaction → Resource → Except String ResolvedTransaction :=
  fun _ _ => .ok ⟨0⟩

/-- A concrete verifier that succeeds with the max-cycle value. -/
def wVerifySingle :
    ResolvedTransaction → Resource → ScriptGroupType → Byte32 → Nat → Except String Nat :=
  fun _ _ _ _ mc => .ok mc

/-- A well-formed 66-character script hash beginning with "0x". -/
def goodHash : String :=
  "0xaaaaaaaaaaaaaaaaaaaaaaaaaaaaaaaaaaaaaaaaaaaaaaaaaaaaaaaaaaaaaaaa"

/-! ## Helper lemmas -/

/-- The inner loop walks over ordinary instructions, accumulating
their cycle cost, while the budget allows it. -/
theorem runEvents_append_others (exitV a : Int) (max : Nat) (pre : List Nat)
    (evs : List Event) (cyc : Nat) (h : cyc + pre.sum ≤ max) :
    runEvents exitV a max (pre.map Event.other ++ evs) cyc
      = runEvents exitV a max evs (cyc + pre.sum) := by
  induction pre generalizing cyc with
  | nil => simp
  | cons p ps ih =>
      simp only [List.map_cons, List.cons_append, runEvents]
      have hle : ¬ cyc + p > max := by
        simp only [List.sum_cons] at h
        omega
      rw [if_neg hle]
      simp only [List.append_eq]
      rw [ih (cyc + p) (by simp only [List.sum_cons] at h; omega)]
      congr 1
      simp only [List.sum_cons]
      omega

/-- Unfolding of the cascade when the inner loop reaches the
spawn-handoff boundary. -/
theorem runToBoundary_hit2101 (vec : List Machine) (m m2 : Machine)
    (sd : Option SpawnData) (h : runUntilBoundary m = .hit2101 m2) :
    runToBoundary vec m sd = .ok (.b2101 m2, vec) := by
  cases vec <;> simp [runToBoundary, h]

/-- Evaluation of the spawn-handoff branch on a machine whose next
instruction is the handoff ecall, when the margin fits in the budget
and covers the ecall's own cost, and the popped entry is a spawn. -/
theorem handleSpawnBoundary_spawn_eq (c : Nat) (rest : List Event) (exitV a : Int)
    (C M : Nat) (child : Machine) (sdc : SpawnData) (ctxRest : List ResumableMachine)
    (vec : List Machine) (sd : Option SpawnData) (pops : Nat)
    (hM : C + 500 ≤ M) (hc : c ≤ 500) :
    handleSpawnBoundary ⟨Event.ecall2101 c :: rest, exitV, C, M, a⟩
        (.spawn child sdc :: ctxRest) vec sd pops
      = .ok (child.setMaxCycles (M - 500 - C), ctxRest,
             (⟨rest, exitV, C + 500, M, a⟩ : Machine) :: vec, some sdc, pops + 1) := by
  have hstep : ¬ (M - 500 + c > M) := by omega
  simp only [handleSpawnBoundary, Machine.setCycles, Machine.stepDiscard, Machine.step,
    Machine.setMaxCycles, Event.cost, if_neg hstep]

/-! ## C1 -/

/-- C1: For every execution in which the program issues the
spawn-handoff boundary ecall (OP_ECALL with A7 = 2101) while the
suspended-machine stack is empty, the session surfaces a
StackInvariantViolation (a fatal, non-recoverable outcome) — the
underflowing pop of the suspended-machine stack — rather than
continuing silently: whatever ordinary instructions precede the
handoff ecall and whatever depth budget remains, `machine_sget` with
an empty suspended-machine stack ends in the stack-underflow error. -/
theorem c1_spawn_handoff_on_empty_stack_is_fatal (pre : List Nat) (c : Nat)
    (rest : List Event) (exitV a : Int) (cyc max s : Nat)
    (hbudget : cyc + pre.sum ≤ max) :
    machine_sget ⟨pre.map Event.other ++ Event.ecall2101 c :: rest, exitV, cyc, max, a⟩ [] (s + 1)
      = .error .stackUnderflow := by
  simp [machine_sget, machine_sgetFull, sgetAux, runToBoundary, runUntilBoundary,
    runEvents_append_others exitV a max pre _ cyc hbudget, runEvents, handleSpawnBoundary,
    Except.map]

/-- Witness for C1 at a concrete input: one ordinary instruction
costing 2 cycles, then the spawn-handoff ecall, empty stack, depth
budget 1. -/
theorem c1_spawn_handoff_on_empty_stack_is_fatal_witness :
    machine_sget ⟨[Event.other 2, Event.ecall2101 0], 0, 0, 1000, 0⟩ [] 1
      = .error .stackUnderflow := by
  have h := c1_spawn_handoff_on_empty_stack_is_fatal [2] 0 [] 0 0 0 1000 0 (by decide)
  simpa using h

/-! ## C2 -/

set_option maxRecDepth 8000 in
/-- Counterexample to C2 as stated: in a session where the prepared
child actually stops with return value 7 after consuming 42 cycles,
the resumed parent's return-value register holds 0 (not 7: the initial
register value 9 was overwritten by the update-caller write of the
constant 0) and the parent's cycle ledger holds exactly its own
500-cycle handoff margin (the child's 42 consumed cycles were not
added), because main.rs line 712 calls `update_caller_machine` with
the constants 0, 0 instead of the child's actual values. -/
theorem c2_counterexample :
    (machine_sget parentMachine [.spawn (childMachine 7) childSpawnData] 2).map Machine.a0
        = .ok 0 ∧
    (machine_sget parentMachine [.spawn (childMachine 7) childSpawnData] 2).map Machine.cycles
        = .ok 500 ∧
    (childMachine 7).exitVal = 7 ∧ parentMachine.a0 = 9 :=
  ⟨rfl, rfl, rfl, rfl⟩

/-- C2 amended: whenever the active child machine stops (its
instruction stream — arbitrary ordinary instructions with arbitrary
cycle costs — runs out, with an arbitrary exit value and arbitrary
consumed-cycle total) and the internal stack of suspended parents is
non-empty, the session manager pops the parent and performs the
update-caller write with the constant return value 0 and the constant
consumed-cycle count 0 (not the child's actual values), then resumes
with the parent active: for every parent, every remaining parent
stack, suspended-machine stack, pop count and remaining depth budget,
the session continues exactly as the session whose active machine is
the popped parent after the update-caller write — and that write
stores 0 in the parent's return-value register and adds 0 to its
cycle ledger, independent of the child's actual values. -/
theorem c2_amended_update_caller_writes_zero (costs : List Nat) (exitV a : Int)
    (C M : Nat) (parent : Machine) (vecRest : List Machine) (s : SpawnData)
    (ctx : List ResumableMachine) (pops K : Nat)
    (hbudget : C + costs.sum ≤ M) :
    sgetAux (K + 1)
        ⟨⟨costs.map Event.other, exitV, C, M, a⟩, ctx, parent :: vecRest, some s, pops⟩
      = sgetAux (K + 1)
        ⟨update_caller_machine parent 0 0 s, ctx, vecRest, some s, pops⟩ ∧
    (update_caller_machine parent 0 0 s).a0 = 0 ∧
    (update_caller_machine parent 0 0 s).cycles = parent.cycles := by
  have hstop : runUntilBoundary (⟨costs.map Event.other, exitV, C, M, a⟩ : Machine)
      = .stopped ⟨[], exitV, C + costs.sum, M, a⟩ := by
    have h := runEvents_append_others exitV a M costs [] C hbudget
    simp only [List.append_nil] at h
    simpa [runUntilBoundary, runEvents] using h
  have hrw : runToBoundary (parent :: vecRest)
        (⟨costs.map Event.other, exitV, C, M, a⟩ : Machine) (some s)
      = runToBoundary vecRest (update_caller_machine parent 0 0 s) (some s) := by
    simp [runToBoundary, hstop]
  refine ⟨?_, rfl, rfl⟩
  simp only [sgetAux, hrw]

/-- Witness for the amended C2 at a concrete input: a child that stops
with exit value 7 after consuming 42 cycles, and a parked parent with
return-value register 9 and 500 cycles on its ledger: the session
continues with the parent active, its register overwritten with 0 and
its ledger unchanged. -/
theorem c2_amended_update_caller_writes_zero_witness :
    sgetAux 1
        ⟨⟨[Event.other 42], 7, 0, 2000, 0⟩, [],
         (⟨[Event.ecall2043 0, Event.other 1], 3, 500, 2000, 9⟩ : Machine) :: [],
         some childSpawnData, 1⟩
      = sgetAux 1
        ⟨update_caller_machine ⟨[Event.ecall2043 0, Event.other 1], 3, 500, 2000, 9⟩
           0 0 childSpawnData, [], [], some childSpawnData, 1⟩ ∧
    (update_caller_machine ⟨[Event.ecall2043 0, Event.other 1], 3, 500, 2000, 9⟩
        0 0 childSpawnData).a0 = 0 ∧
    (update_caller_machine ⟨[Event.ecall2043 0, Event.other 1], 3, 500, 2000, 9⟩
        0 0 childSpawnData).cycles
      = (⟨[Event.ecall2043 0, Event.other 1], 3, 500, 2000, 9⟩ : Machine).cycles := by
  have h := c2_amended_update_caller_writes_zero [42] 7 0 0 2000
    (⟨[Event.ecall2043 0, Event.other 1], 3, 500, 2000, 9⟩ : Machine) [] childSpawnData
    [] 1 0 (by decide)
  simpa using h

/-! ## C3 -/

/-- Helper: on a pure spawn chain (active machine and every prepared
machine immediately issue the handoff ecall), a depth budget within
the prepared depth performs exactly one pop per budget unit and leaves
the machine of the corresponding call depth active. -/
theorem sget_spawnChain_ok (K : Nat) :
    ∀ (start D : Nat) (exitV a : Int) (C M : Nat) (vec : List Machine)
      (sd : Option SpawnData) (pops : Nat),
      K ≤ D → 500 * K + C ≤ M →
      ∃ st, sgetAux K ⟨⟨[Event.ecall2101 0], exitV, C, M, a⟩, spawnStack start D, vec, sd, pops⟩
          = .ok st ∧
        st.pops = pops + K ∧
        st.machine.exitVal = (if K = 0 then exitV else ((start + K - 1 : Nat) : Int)) ∧
        st.ctx = spawnStack (start + K) (D - K) := by
  induction K with
  | zero =>
      intro start D exitV a C M vec sd pops _ _
      exact ⟨_, rfl, by simp, by simp, by simp⟩
  | succ k ih =>
      intro start D exitV a C M vec sd pops hKD hM
      cases D with
      | zero => omega
      | succ d =>
          have hunfold :
              sgetAux (k + 1)
                  ⟨⟨[Event.ecall2101 0], exitV, C, M, a⟩, spawnStack start (d + 1), vec, sd, pops⟩
                = sgetAux k
                  ⟨⟨[Event.ecall2101 0], (start : Int), 0, M - 500 - C, 0⟩,
                   spawnStack (start + 1) d,
                   (⟨[], exitV, C + 500, M, a⟩ : Machine) :: vec, some ⟨start⟩, pops + 1⟩ := by
            have hrtb : runToBoundary vec (⟨[Event.ecall2101 0], exitV, C, M, a⟩ : Machine) sd
                = .ok (.b2101 ⟨[Event.ecall2101 0], exitV, C, M, a⟩, vec) :=
              runToBoundary_hit2101 vec _ _ sd rfl
            rw [show spawnStack start (d + 1)
                  = .spawn (immediateSpawner start) ⟨start⟩ :: spawnStack (start + 1) d from rfl]
            simp only [sgetAux, hrtb]
            rw [handleSpawnBoundary_spawn_eq 0 [] exitV a C M (immediateSpawner start) ⟨start⟩
                  (spawnStack (start + 1) d) vec sd pops (by omega) (by omega)]
            simp [Machine.running, immediateSpawner, Machine.setMaxCycles]
          rw [hunfold]
          obtain ⟨st, heq, hpops, hexit, hctx⟩ :=
            ih (start + 1) d (start : Int) 0 0 (M - 500 - C)
              ((⟨[], exitV, C + 500, M, a⟩ : Machine) :: vec) (some ⟨start⟩) (pops + 1)
              (by omega) (by omega)
          refine ⟨st, heq, by omega, ?_, ?_⟩
          · rw [if_neg (Nat.succ_ne_zero k)]
            by_cases hk : k = 0
            · subst hk
              simpa using hexit
            · rw [if_neg hk] at hexit
              rw [hexit]
              congr 1
              omega
          · rw [hctx]
            congr 1 <;> omega

/-- Helper: on a pure spawn chain, a depth budget exceeding the
prepared depth drives the session into the fatal pop of the empty
suspended-machine stack. -/
theorem sget_spawnChain_err (D : Nat) :
    ∀ (K start : Nat) (exitV a : Int) (C M : Nat) (vec : List Machine)
      (sd : Option SpawnData) (pops : Nat),
      D < K → 500 * D + C ≤ M →
      sgetAux K ⟨⟨[Event.ecall2101 0], exitV, C, M, a⟩, spawnStack start D, vec, sd, pops⟩
        = .error .stackUnderflow := by
  induction D with
  | zero =>
      intro K start exitV a C M vec sd pops hK _
      cases K with
      | zero => omega
      | succ k =>
          have hrtb : runToBoundary vec (⟨[Event.ecall2101 0], exitV, C, M, a⟩ : Machine) sd
              = .ok (.b2101 ⟨[Event.ecall2101 0], exitV, C, M, a⟩, vec) :=
            runToBoundary_hit2101 vec _ _ sd rfl
          simp [sgetAux, hrtb, spawnStack, handleSpawnBoundary]
  | succ d ih =>
      intro K start exitV a C M vec sd pops hK hM
      cases K with
      | zero => omega
      | succ k =>
          have hunfold :
              sgetAux (k + 1)
                  ⟨⟨[Event.ecall2101 0], exitV, C, M, a⟩, spawnStack start (d + 1), vec, sd, pops⟩
                = sgetAux k
                  ⟨⟨[Event.ecall2101 0], (start : Int), 0, M - 500 - C, 0⟩,
                   spawnStack (start + 1) d,
                   (⟨[], exitV, C + 500, M, a⟩ : Machine) :: vec, some ⟨start⟩, pops + 1⟩ := by
            have hrtb : runToBoundary vec (⟨[Event.ecall2101 0], exitV, C, M, a⟩ : Machine) sd
                = .ok (.b2101 ⟨[Event.ecall2101 0], exitV, C, M, a⟩, vec) :=
              runToBoundary_hit2101 vec _ _ sd rfl
            rw [show spawnStack start (d + 1)
                  = .spawn (immediateSpawner start) ⟨start⟩ :: spawnStack (start + 1) d from rfl]
            simp only [sgetAux, hrtb]
            rw [handleSpawnBoundary_spawn_eq 0 [] exitV a C M (immediateSpawner start) ⟨start⟩
                  (spawnStack (start + 1) d) vec sd pops (by omega) (by omega)]
            simp [Machine.running, immediateSpawner, Machine.setMaxCycles]
          rw [hunfold]
          exact ih k (start + 1) (start : Int) 0 0 (M - 500 - C) _ _ _ (by omega) (by omega)

set_option maxRecDepth 8000 in
/-- Counterexample to C3 as stated.  First scenario: depth budget
K = 1, prepared stack depth D = 1, but the program issues the
cache-reset ecall (A7 = 2043): the budget unit is consumed by the
cache-reset boundary — not a spawn/exec handoff — so zero pops occur
(not K = 1), the suspended-machine stack is returned untouched, and
the returned machine is the root (depth 0), not the machine at call
depth K = 1.  Second scenario: a pure spawn chain with K = 2 > D = 1
does not return without error after D pops: it ends in the fatal
stack-underflow pop. -/
theorem c3_counterexample :
    machine_sgetFull cacheResetRoot [.spawn (childMachine 7) childSpawnData] 1
        = .ok ⟨⟨[Event.other 1], 0, 3, 2000, 0⟩,
               [.spawn (childMachine 7) childSpawnData], [], none, 0⟩ ∧
    machine_sgetFull spawnRoot (spawnStack 1 1) 2 = .error .stackUnderflow :=
  ⟨rfl, rfl⟩

/-- C3 amended: both recognized boundary ecalls consume depth-budget
units — a cache-reset ecall (A7 = 2043) consumes one unit while
popping nothing and leaving the suspended-machine stack untouched; on
a pure spawn-handoff chain over a prepared stack of depth D, a budget
K ≤ D performs exactly K pops and returns the machine at call depth K
(depth-tagged by its exit value), while a budget K > D ends in the
fatal stack-underflow pop instead of returning without error. -/
theorem c3_amended_handoff_bound :
    (∀ (c : Nat) (rest : List Event) (exitV a : Int) (C M : Nat)
        (ctx : List ResumableMachine),
        C + c ≤ M → rest ≠ [] →
        machine_sgetFull ⟨Event.ecall2043 c :: rest, exitV, C, M, a⟩ ctx 1
          = .ok ⟨⟨rest, exitV, C + c, M, a⟩, ctx, [], none, 0⟩) ∧
    (∀ (K D M : Nat) (exitV a : Int), K ≤ D → 500 * K ≤ M →
        ∃ st,
          machine_sgetFull ⟨[Event.ecall2101 0], exitV, 0, M, a⟩ (spawnStack 1 D) K
              = .ok st ∧
            st.pops = K ∧
            st.machine.exitVal = (if K = 0 then exitV else (K : Int)) ∧
            st.ctx = spawnStack (1 + K) (D - K)) ∧
    (∀ (K D M : Nat) (exitV a : Int), D < K → 500 * D ≤ M →
        machine_sgetFull ⟨[Event.ecall2101 0], exitV, 0, M, a⟩ (spawnStack 1 D) K
          = .error .stackUnderflow) := by
  refine ⟨?_, ?_, ?_⟩
  · intro c rest exitV a C M ctx hcm hrest
    cases rest with
    | nil => exact absurd rfl hrest
    | cons e0 rest0 =>
        have hle : ¬ (C + c > M) := by omega
        simp [machine_sgetFull, sgetAux, runToBoundary, runUntilBoundary, runEvents,
          if_neg hle, Machine.running]
  · intro K D M exitV a hKD hM
    obtain ⟨st, heq, hpops, hexit, hctx⟩ :=
      sget_spawnChain_ok K 1 D exitV a 0 M [] none 0 hKD (by omega)
    refine ⟨st, heq, by omega, ?_, hctx⟩
    by_cases hk : K = 0
    · subst hk
      simpa using hexit
    · rw [if_neg hk] at hexit ⊢
      rw [hexit]
      congr 1
      omega
  · intro K D M exitV a hK hM
    exact sget_spawnChain_err D K 1 exitV a 0 M [] none 0 hK (by omega)

/-- Witness for the amended C3 at concrete inputs: a cache-reset run
with budget 1 and stack depth 1 (budget consumed, nothing popped), a
pure spawn chain with K = 1 ≤ D = 2 (exactly one pop, depth-1 machine
returned), and a pure spawn chain with K = 2 > D = 1 (fatal
stack underflow). -/
theorem c3_amended_handoff_bound_witness :
    machine_sgetFull ⟨[Event.ecall2043 3, Event.other 1], 0, 0, 2000, 0⟩ [] 1
        = .ok ⟨⟨[Event.other 1], 0, 0 + 3, 2000, 0⟩, [], [], none, 0⟩ ∧
    (∃ st,
        machine_sgetFull ⟨[Event.ecall2101 0], 0, 0, 2000, 0⟩ (spawnStack 1 2) 1
            = .ok st ∧
          st.pops = 1 ∧
          st.machine.exitVal = (if 1 = 0 then (0 : Int) else ((1 : Nat) : Int)) ∧
          st.ctx = spawnStack (1 + 1) (2 - 1)) ∧
    machine_sgetFull ⟨[Event.ecall2101 0], 0, 0, 2000, 0⟩ (spawnStack 1 1) 2
        = .error .stackUnderflow :=
  ⟨c3_amended_handoff_bound.1 3 [Event.other 1] 0 0 0 2000 [] (by omega) (by simp),
   c3_amended_handoff_bound.2.1 1 2 2000 0 0 (by omega) (by omega),
   c3_amended_handoff_bound.2.2 2 1 2000 0 0 (by omega) (by omega)⟩

/-! ## C4 -/

/-- C4: On a spawn/exec handoff boundary ecall, if the parent's cycle
count before the boundary instruction is C and the fixed margin is 500,
then after the handoff the parent's cycle counter equals C + 500,
exactly the boundary instruction was executed on the parent (its event
stream advanced from the ecall to precisely the following
instructions), and the child machine's max-cycle budget equals the
cycle-budget delta, parent max_cycles − 500 − C.  The hypotheses pin
the claim's presuppositions: the 500-cycle margin fits in the parent's
budget and covers the boundary instruction's own cost. -/
theorem c4_spawn_handoff_cycle_accounting (c : Nat) (rest : List Event)
    (exitV a : Int) (C M : Nat) (child : Machine) (sdc : SpawnData)
    (ctxRest : List ResumableMachine) (vec : List Machine)
    (sd : Option SpawnData) (pops : Nat)
    (hM : C + 500 ≤ M) (hc : c ≤ 500) :
    handleSpawnBoundary ⟨Event.ecall2101 c :: rest, exitV, C, M, a⟩
        (.spawn child sdc :: ctxRest) vec sd pops
      = .ok (child.setMaxCycles (M - 500 - C), ctxRest,
             (⟨rest, exitV, C + 500, M, a⟩ : Machine) :: vec, some sdc, pops + 1) :=
  handleSpawnBoundary_spawn_eq c rest exitV a C M child sdc ctxRest vec sd pops hM hc

/-- Witness for C4 at a concrete input: parent cycle count C = 100,
max budget M = 3000, boundary ecall costing 10; the parent resumes
the stack with counter 600 and one consumed instruction, and the child
budget is 2400. -/
theorem c4_spawn_handoff_cycle_accounting_witness :
    handleSpawnBoundary ⟨[Event.ecall2101 10, Event.other 1], 0, 100, 3000, 0⟩
        [.spawn (childMachine 7) childSpawnData] [] none 0
      = .ok ((childMachine 7).setMaxCycles 2400, [],
             (⟨[Event.other 1], 0, 600, 3000, 0⟩ : Machine) :: [], some childSpawnData, 1) := by
  have h := c4_spawn_handoff_cycle_accounting 10 [Event.other 1] 0 0 100 3000
    (childMachine 7) childSpawnData [] [] none 0 (by omega) (by omega)
  simpa using h

/-! ## C5 -/

/-- C5: for every decoded instruction normalized by
`TracedInstruction::new`, the operand normalization follows the format
table — immediate format: op_a = destination register, op_b = source
register, op_c = the immediate, imm_b false, imm_c true; register
format: rd, rs1, rs2 with both flags false; store format: stored
source register, base register, offset immediate with both flags
false; upper-immediate format: rd, the immediate, 0 with imm_b true,
imm_c false. -/
theorem c5_trace_operand_table (opcodeName mnemonics : String)
    (instruction len rd rs1 rs2 imm : Nat) :
    (TracedInstruction.new opcodeName mnemonics instruction len (.itype rd rs1 imm)).map
        (fun t => (t.op_a, t.op_b, t.op_c, t.imm_b, t.imm_c))
      = .ok (rd, rs1, imm, false, true) ∧
    (TracedInstruction.new opcodeName mnemonics instruction len (.rtype rd rs1 rs2)).map
        (fun t => (t.op_a, t.op_b, t.op_c, t.imm_b, t.imm_c))
      = .ok (rd, rs1, rs2, false, false) ∧
    (TracedInstruction.new opcodeName mnemonics instruction len (.stype rs2 rs1 imm)).map
        (fun t => (t.op_a, t.op_b, t.op_c, t.imm_b, t.imm_c))
      = .ok (rs2, rs1, imm, false, false) ∧
    (TracedInstruction.new opcodeName mnemonics instruction len (.utype rd imm)).map
        (fun t => (t.op_a, t.op_b, t.op_c, t.imm_b, t.imm_c))
      = .ok (rd, imm, 0, true, false) :=
  ⟨rfl, rfl, rfl, rfl⟩

/-! ## C7 -/

/-- C7: for every four-operand (R4) or five-operand (R5) fused
instruction, the trace normalizer raises a fatal configuration error
and never produces a TracedInstruction record. -/
theorem c7_fused_formats_are_fatal (opcodeName mnemonics : String)
    (instruction len rd rs1 rs2 rs3 rs4 : Nat) :
    TracedInstruction.new opcodeName mnemonics instruction len (.r4type rd rs1 rs2 rs3)
        = .error "Shouldn't have r4 type in trace dumping" ∧
    TracedInstruction.new opcodeName mnemonics instruction len (.r5type rd rs1 rs2 rs3 rs4)
        = .error "Shouldn't have r5 type in trace dumping" :=
  ⟨rfl, rfl⟩

/-! ## C8 -/

/-- C8: in full and fast modes, for every run that completes with a
program exit code, the exit code is reported verbatim; a zero exit
code lets the process return success, and every non-zero exit code
maps to the one fixed non-zero process status 254, regardless of its
value. -/
theorem c8_exit_code_contract (d : Int) :
    ((full_mode_outcome (.ok d)).1 = some d ∧ (fast_mode_outcome (.ok d)).1 = some d) ∧
    (d = 0 →
      (full_mode_outcome (.ok d)).2 = .success ∧ (fast_mode_outcome (.ok d)).2 = .success) ∧
    (d ≠ 0 →
      (full_mode_outcome (.ok d)).2 = .exitWith 254 ∧
        (fast_mode_outcome (.ok d)).2 = .exitWith 254) := by
  refine ⟨⟨rfl, rfl⟩, ?_, ?_⟩ <;> intro h <;>
    simp [full_mode_outcome, fast_mode_outcome, h]

/-- Witness for C8 at the spec's concrete scenario: program exit code
7 maps to process status 254 in both modes, exit code 0 to success. -/
theorem c8_exit_code_contract_witness :
    ((full_mode_outcome (.ok 7)).2 = .exitWith 254 ∧
      (fast_mode_outcome (.ok 7)).2 = .exitWith 254) ∧
    ((full_mode_outcome (.ok 0)).2 = .success ∧
      (fast_mode_outcome (.ok 0)).2 = .success) :=
  ⟨(c8_exit_code_contract 7).2.2 (by decide), (c8_exit_code_contract 0).2.1 rfl⟩

/-! ## C9 -/

/-- C9: in trace_dump mode the instruction decoder is always built for
ScriptVersion::V0, for every value of the --script-version option
(while the machine itself keeps the CLI-selected version), and an
instruction that exists only in a later ISA version fails to decode
there. -/
theorem c9_trace_dump_decoder_is_v0 (cli introducedIn : ScriptVersion) :
    trace_dump_decoder_version cli = .v0 ∧
    machine_script_version cli = cli ∧
    (introducedIn ≠ .v0 → trace_dump_decode_ok cli introducedIn = false) := by
  refine ⟨rfl, rfl, ?_⟩
  intro h
  cases introducedIn with
  | v0 => exact absurd rfl h
  | v1 => rfl
  | v2 => rfl

/-- Witness for C9 at a concrete input: with --script-version 2
selected, the trace_dump decoder is still built for V0 and a V1-only
instruction fails to decode. -/
theorem c9_trace_dump_decoder_is_v0_witness :
    trace_dump_decoder_version .v2 = .v0 ∧
    machine_script_version .v2 = .v2 ∧
    trace_dump_decode_ok .v2 .v1 = false :=
  ⟨(c9_trace_dump_decoder_is_v0 .v2 .v1).1,
   (c9_trace_dump_decoder_is_v0 .v2 .v1).2.1,
   (c9_trace_dump_decoder_is_v0 .v2 .v1).2.2 (by decide)⟩

/-! ## C10 -/

/-- C10: for every input, `run_json` returns a JSON object with
exactly one non-null field of cycle/error: the consumed cycles on
successful verification, and every failure mode — malformed
transaction JSON, unknown script group type, a script hash that is not
66 characters starting with "0x", an unparsable max cycle, or a
verification error — as a non-null error string rather than a failure
to return. -/
theorem c10_run_json_exactly_one_field
    (parseTx : String → Except String MockTransaction)
    (parseGroupType : String → Except String ScriptGroupType)
    (parseCycle : String → Option Nat)
    (resourceFromBoth : MockTransaction → Except String Resource)
    (resolveTransaction : MockTransaction → Resource → Except String ResolvedTransaction)
    (verifySingle : ResolvedTransaction → Resource → ScriptGroupType → Byte32 → Nat →
      Except String Nat)
    (mock_tx script_group_type hex_script_hash max_cycle : String) :
    (((run_json parseTx parseGroupType parseCycle resourceFromBoth resolveTransaction
          verifySingle mock_tx script_group_type hex_script_hash max_cycle).cycle.isSome ∧
        (run_json parseTx parseGroupType parseCycle resourceFromBoth resolveTransaction
          verifySingle mock_tx script_group_type hex_script_hash max_cycle).error = none) ∨
      ((run_json parseTx parseGroupType parseCycle resourceFromBoth resolveTransaction
          verifySingle mock_tx script_group_type hex_script_hash max_cycle).cycle = none ∧
        (run_json parseTx parseGroupType parseCycle resourceFromBoth resolveTransaction
          verifySingle mock_tx script_group_type hex_script_hash max_cycle).error.isSome)) ∧
    (∀ e, parseTx mock_tx = .error e →
      run_json parseTx parseGroupType parseCycle resourceFromBoth resolveTransaction
          verifySingle mock_tx script_group_type hex_script_hash max_cycle
        = ⟨none, some e⟩) ∧
    (∀ tx e, parseTx mock_tx = .ok tx → parseGroupType script_group_type = .error e →
      run_json parseTx parseGroupType parseCycle resourceFromBoth resolveTransaction
          verifySingle mock_tx script_group_type hex_script_hash max_cycle
        = ⟨none, some e⟩) ∧
    (∀ tx sgt, parseTx mock_tx = .ok tx → parseGroupType script_group_type = .ok sgt →
      (hex_script_hash.length ≠ 66 ∨ ¬ startsWith0x hex_script_hash = true) →
      run_json parseTx parseGroupType parseCycle resourceFromBoth resolveTransaction
          verifySingle mock_tx script_group_type hex_script_hash max_cycle
        = ⟨none, some "Invalid script hash format!"⟩) ∧
    (∀ tx sgt, parseTx mock_tx = .ok tx → parseGroupType script_group_type = .ok sgt →
      hex_script_hash.length = 66 → startsWith0x hex_script_hash = true →
      parseCycle max_cycle = none →
      run_json parseTx parseGroupType parseCycle resourceFromBoth resolveTransaction
          verifySingle mock_tx script_group_type hex_script_hash max_cycle
        = ⟨none, some "Invalid max cycle!"⟩) ∧
    (∀ tx sgt mc c, parseTx mock_tx = .ok tx → parseGroupType script_group_type = .ok sgt →
      hex_script_hash.length = 66 → startsWith0x hex_script_hash = true →
      parseCycle max_cycle = some mc →
      api_run resourceFromBoth resolveTransaction verifySingle tx sgt
          (hex_decode_fallback hex_script_hash) mc = .ok c →
      run_json parseTx parseGroupType parseCycle resourceFromBoth resolveTransaction
          verifySingle mock_tx script_group_type hex_script_hash max_cycle
        = ⟨some c, none⟩) ∧
    (∀ tx sgt mc e, parseTx mock_tx = .ok tx → parseGroupType script_group_type = .ok sgt →
      hex_script_hash.length = 66 → startsWith0x hex_script_hash = true →
      parseCycle max_cycle = some mc →
      api_run resourceFromBoth resolveTransaction verifySingle tx sgt
          (hex_decode_fallback hex_script_hash) mc = .error e →
      run_json parseTx parseGroupType parseCycle resourceFromBoth resolveTransaction
          verifySingle mock_tx script_group_type hex_script_hash max_cycle
        = ⟨none, some e⟩) := by
  refine ⟨?_, ?_, ?_, ?_, ?_, ?_, ?_⟩
  · cases h : internal_run_json parseTx parseGroupType parseCycle resourceFromBoth
        resolveTransaction verifySingle mock_tx script_group_type hex_script_hash max_cycle with
    | ok c => exact Or.inl (by simp [run_json, h, JsonResult.fromResult])
    | error e => exact Or.inr (by simp [run_json, h, JsonResult.fromResult])
  · intro e hpt
    simp [run_json, internal_run_json, hpt, JsonResult.fromResult]
  · intro tx e hpt hgt
    simp [run_json, internal_run_json, hpt, hgt, JsonResult.fromResult]
  · intro tx sgt hpt hgt hbad
    simp only [run_json, internal_run_json, hpt, hgt]
    rw [if_pos hbad]
    rfl
  · intro tx sgt hpt hgt hlen hsw hpc
    simp only [run_json, internal_run_json, hpt, hgt]
    rw [if_neg (by simp [hlen, hsw]), hpc]
    rfl
  · intro tx sgt mc c hpt hgt hlen hsw hpc hrun
    simp only [run_json, internal_run_json, hpt, hgt]
    rw [if_neg (by simp [hlen, hsw]), hpc]
    simp [hrun, JsonResult.fromResult]
  · intro tx sgt mc e hpt hgt hlen hsw hpc hrun
    simp only [run_json, internal_run_json, hpt, hgt]
    rw [if_neg (by simp [hlen, hsw]), hpc]
    simp [hrun, JsonResult.fromResult]

/-- Witness for C10 at concrete inputs: a successful run reports the
cycle count with a null error; a malformed transaction, an invalid
script hash and an unparsable max cycle each report only a non-null
error string. -/
theorem c10_run_json_exactly_one_field_witness :
    run_json wParseTx wParseGroupType wParseCycle wResourceFromBoth wResolveTransaction
        wVerifySingle "tx-ok" "lock" goodHash "100" = ⟨some 100, none⟩ ∧
    run_json wParseTx wParseGroupType wParseCycle wResourceFromBoth wResolveTransaction
        wVerifySingle "not a tx" "lock" goodHash "100" = ⟨none, some "bad tx"⟩ ∧
    run_json wParseTx wParseGroupType wParseCycle wResourceFromBoth wResolveTransaction
        wVerifySingle "tx-ok" "lock" "0y123" "100"
      = ⟨none, some "Invalid script hash format!"⟩ ∧
    run_json wParseTx wParseGroupType wParseCycle wResourceFromBoth wResolveTransaction
        wVerifySingle "tx-ok" "lock" goodHash "not a number"
      = ⟨none, some "Invalid max cycle!"⟩ :=
  ⟨(c10_run_json_exactly_one_field wParseTx wParseGroupType wParseCycle wResourceFromBoth
      wResolveTransaction wVerifySingle "tx-ok" "lock" goodHash "100").2.2.2.2.2.1
      ⟨1⟩ .lock 100 100 rfl rfl (by decide) (by decide) rfl rfl,
   (c10_run_json_exactly_one_field wParseTx wParseGroupType wParseCycle wResourceFromBoth
      wResolveTransaction wVerifySingle "not a tx" "lock" goodHash "100").2.1
      "bad tx" rfl,
   (c10_run_json_exactly_one_field wParseTx wParseGroupType wParseCycle wResourceFromBoth
      wResolveTransaction wVerifySingle "tx-ok" "lock" "0y123" "100").2.2.2.1
      ⟨1⟩ .lock rfl rfl (by decide),
   (c10_run_json_exactly_one_field wParseTx wParseGroupType wParseCycle wResourceFromBoth
      wResolveTransaction wVerifySingle "tx-ok" "lock" goodHash "not a number").2.2.2.2.1
      ⟨1⟩ .lock rfl rfl (by decide) (by decide) rfl⟩
